import Mathlib

/-!
Shallow embedding of the helper module `nlp_help.py` of the
thinkful-unsupervised-capstone repository, together with proofs about the
behavior its specification describes.

Modelling conventions:
  - numeric cell values are rationals;
  - a pandas DataFrame is a list of column names plus row-major data;
  - a fitted sklearn KMeans model is abstract: its configured cluster
    count, its fitted feature count, and a per-row prediction function;
    `predict` returns `none` when the input's column count differs from
    the fitted feature count (sklearn raises ValueError there);
  - print statements are modelled by recording the printed data in the
    returned structures; rendering backends (matplotlib, seaborn, bokeh)
    are presentation-only and not modelled;
  - in-place mutation of caller-supplied tables is modelled by explicit
    state passing: the mutated tables are returned.
-/

namespace NlpHelp

/-- A pandas DataFrame with numeric columns: `cols` are the column names
in order, `rows` the row-major data. -/
structure Table where
  cols : List String
  rows : List (List ℚ)
deriving DecidableEq

/-- Well-formedness of a table: every row has one entry per column. -/
def Table.WF (t : Table) : Prop := ∀ r ∈ t.rows, r.length = t.cols.length

instance (t : Table) : Decidable t.WF :=
  decidable_of_iff (∀ r ∈ t.rows, r.length = t.cols.length) Iff.rfl

/-- Column assignment `df[name] = vals` in pandas: overwrites the column
in place when `name` is already present, otherwise appends it on the
right. -/
def Table.setCol (t : Table) (name : String) (vals : List ℚ) : Table :=
  match t.cols.findIdx? (fun c => c == name) with
  | some j => { cols := t.cols, rows := (t.rows.zip vals).map (fun rv => rv.1.set j rv.2) }
  | none => { cols := t.cols ++ [name], rows := (t.rows.zip vals).map (fun rv => rv.1 ++ [rv.2]) }

/-- Row selection `df[df.name == v]`. At every call site in
`eval_clusters` the column is present; the missing-column case (an
AttributeError in pandas) is modelled by an empty selection and is never
reached. -/
def Table.filterEq (t : Table) (name : String) (v : ℚ) : Table :=
  match t.cols.findIdx? (fun c => c == name) with
  | some j => { cols := t.cols, rows := t.rows.filter (fun r => decide (r.getD j 0 = v)) }
  | none => { cols := t.cols, rows := [] }

/-- Per-column means `df.mean()`, as a series of (column name, mean)
pairs in column order. An empty selection (NaN means in pandas) is
outside the modelled domain, per the spec's undefined-behavior note on
empty cluster selections; the rational division by zero yields 0 here. -/
def Table.colMeans (t : Table) : List (String × ℚ) :=
  (List.range t.cols.length).map (fun j =>
    (t.cols.getD j "", (t.rows.map (fun r => r.getD j 0)).sum / (t.rows.length : ℚ)))

/-- Insertion into a descending-sorted series, keeping earlier elements
first on ties. -/
def insertDesc (x : String × ℚ) : List (String × ℚ) → List (String × ℚ)
  | [] => [x]
  | y :: ys => if y.2 ≤ x.2 then x :: y :: ys else y :: insertDesc x ys

/-- The call `series.sort_values(ascending=False)`: sort the
(name, mean) series by value, descending. -/
def sortDesc (l : List (String × ℚ)) : List (String × ℚ) := l.foldr insertDesc []

/-- Positional slice `series[start:stop]`. -/
def windowSlice (l : List (String × ℚ)) (start stop : Nat) : List (String × ℚ) :=
  (l.drop start).take (stop - start)

/-- A fitted KMeans model, abstractly: the configured cluster count, the
number of features it was fitted on, and the (deterministic) per-row
prediction function. -/
structure KMeansModel where
  n_clusters : Nat
  n_features : Nat
  predictRow : List ℚ → Nat

/-- The call `model.predict(df)`: one label per row; `none` models the
ValueError sklearn raises when the column count differs from the fitted
feature count. -/
def KMeansModel.predict (m : KMeansModel) (t : Table) : Option (List Nat) :=
  if t.cols.length = m.n_features then some (t.rows.map m.predictRow) else none

/-- Conversion of an integer label vector to the numeric column pandas
stores it as. -/
def natsToRats (l : List Nat) : List ℚ := l.map (Nat.cast : Nat → ℚ)

/-- The per-cluster block printed by `eval_clusters` for one cluster
index: the sliced top window of the train and eval mean series, and the
set intersection of their column names. -/
structure ClusterReport where
  trainTop : List (String × ℚ)
  evalTop : List (String × ℚ)
  overlap : Finset String
deriving DecidableEq

/-- Body of the `for i in range(model.n_clusters)` loop of
`eval_clusters`: filter each table to the rows of cluster `i`, take the
per-column means sorted descending, slice with `start, stop = 0, 10`
when `i < 1` and `1, 11` otherwise, and intersect the surviving column
names of the two splits. -/
def clusterReport (Xtr Xev : Table) (i : Nat) : ClusterReport :=
  let data_train := Xtr.filterEq "clusters" (i : ℚ)
  let data_eval := Xev.filterEq "clusters" (i : ℚ)
  let se : Nat × Nat := if i < 1 then (0, 10) else (1, 11)
  let train := windowSlice (sortDesc data_train.colMeans) se.1 se.2
  let evl := windowSlice (sortDesc data_eval.colMeans) se.1 se.2
  { trainTop := train, evalTop := evl,
    overlap := (train.map Prod.fst).toFinset ∩ (evl.map Prod.fst).toFinset }

/-- Everything `eval_clusters` leaves behind: the three mutated tables,
the three predicted label vectors, and the printed per-cluster blocks. -/
structure EvalOut where
  train : Table
  eval : Table
  holdout : Table
  trainLabels : List Nat
  evalLabels : List Nat
  holdoutLabels : List Nat
  reports : List ClusterReport
deriving DecidableEq

/-- The function `eval_clusters(model, X_train, X_eval, X_holdout)`:
predicts a label per row for the three tables, assigns the labels as a
`clusters` column on each table, and builds one report per cluster index
in `range(model.n_clusters)`. The printed groupby aggregations are
display-only restatements of the same per-cluster means and are not
recorded separately. -/
def eval_clusters (model : KMeansModel) (X_train X_eval X_holdout : Table) :
    Option EvalOut :=
  match model.predict X_train, model.predict X_eval, model.predict X_holdout with
  | some train_labels, some eval_labels, some holdout_labels =>
    let Xtr := X_train.setCol "clusters" (natsToRats train_labels)
    let Xev := X_eval.setCol "clusters" (natsToRats eval_labels)
    let Xho := X_holdout.setCol "clusters" (natsToRats holdout_labels)
    some { train := Xtr, eval := Xev, holdout := Xho,
           trainLabels := train_labels, evalLabels := eval_labels,
           holdoutLabels := holdout_labels,
           reports := (List.range model.n_clusters).map (clusterReport Xtr Xev) }
  | _, _, _ => none

/-- Input of `make_kmeans_clusters`: either a raw numpy matrix or an
already-built DataFrame. -/
inductive TrainInput
  | mat (m : List (List ℚ))
  | df (t : Table)

/-- Lines normalizing `train_data` in `make_kmeans_clusters`: a raw
matrix becomes a DataFrame with synthesized column names built by
appending the column index to the text comp underscore, one per matrix
column; a DataFrame is used as-is. -/
def normalizeTrain : TrainInput → Table
  | .mat m => { cols := (List.range (m.headD []).length).map (fun i => "comp_" ++ toString i),
                rows := m }
  | .df t => t

/-- Python `range(start, stop, step)` for a positive step. -/
def pyRange (start stop step : Nat) : List Nat :=
  (List.range ((stop - start + step - 1) / step)).map (fun k => start + k * step)

/-- One entry of the `models` list built by the sweep: the constructor
name and the constructor arguments recorded as they appear in the call
(`init` string, and the optional `random_state` / `batch_size`). -/
structure SweepModel where
  name : String
  n_clusters : Nat
  init : String
  random_state : Option Nat
  batch_size : Option Nat
deriving DecidableEq

/-- The `models` list of `make_kmeans_clusters`: for every candidate
count in the range, a KMeans variant and a MiniBatchKMeans variant. -/
def sweepModels (start stop step : Nat) : List SweepModel :=
  (pyRange start stop step).flatMap (fun cluster =>
    [ { name := "KMeans", n_clusters := cluster, init := "k-means++",
        random_state := some 15, batch_size := none },
      { name := "MiniBatch", n_clusters := cluster, init := "random",
        random_state := none, batch_size := some 500 } ])

/-- Abstract sklearn behavior for the sweep. `fit m k` gives the label
vector `labels_` produced by the k-th fitting call made on model `m`
(MiniBatchKMeans with random init need not fit the same way twice).
`sil t labels` models `silhouette_score(t, labels)`; `none` models the
ValueError sklearn raises outside the metric's domain. -/
structure FitEnv where
  fit : SweepModel → Nat → List Nat
  sil : Table → List Nat → Option ℚ

/-- What the loop body of `make_kmeans_clusters` printed and computed
for one model of the list. -/
structure ModelTrace where
  printedParams : Bool
  labels : List Nat
  y_pred : Option (List Nat)
  silhouette : Option ℚ
  printedScore : Option ℚ
  printedCrosstab : Option (List Nat × List Nat)
deriving DecidableEq

/-- Loop body of `make_kmeans_clusters` for one `(name, model)` pair:
fit and read `labels_`, print the model parameters, and when the labels
hold more than one distinct value, refit with `fit_predict`, compute the
silhouette score of the first fit's labels, and print score and the
crosstab of `y_pred` against `labels` only when the score exceeds
zero. `none` models an uncaught error from `silhouette_score`. -/
def processModel (env : FitEnv) (train_data : Table) (m : SweepModel) :
    Option ModelTrace :=
  let labels := env.fit m 0
  if labels.dedup.length > 1 then
    let y_pred := env.fit m 1
    match env.sil train_data labels with
    | some silhouette =>
      some { printedParams := true, labels := labels, y_pred := some y_pred,
             silhouette := some silhouette,
             printedScore := if 0 < silhouette then some silhouette else none,
             printedCrosstab := if 0 < silhouette then some (y_pred, labels) else none }
    | none => none
  else
    some { printedParams := true, labels := labels, y_pred := none,
           silhouette := none, printedScore := none, printedCrosstab := none }

/-- The function `make_kmeans_clusters(train_data, start, stop, step)`
(defaults 2, 11, 1): normalize the training input to a DataFrame, build
the model list for the candidate range, and run the reporting loop body
on every model; the whole call raises when some model's body does. -/
def make_kmeans_clusters (env : FitEnv) (train_data : TrainInput)
    (start stop step : Nat) : Option (List ModelTrace) :=
  let df := normalizeTrain train_data
  (sweepModels start stop step).mapM (processModel env df)

/-- Events of one `fit_and_predict` run, in order: the grid-search fit,
the two cross-validation printouts, the eval prediction, and the
classification-report and confusion-matrix printouts. -/
inductive GEvent
  | fitCall
  | printCV
  | predictCall
  | printReport
deriving DecidableEq

/-- What a completed `fit_and_predict` run printed and computed. -/
structure FitReport where
  events : List GEvent
  cvMean : List ℚ
  cvStd : List ℚ
  y_pred : List String
deriving DecidableEq

/-- Abstract behavior of the wrapped sklearn grid search: the
cross-validation score arrays it reports after fitting, and the
prediction function of the refit best estimator. -/
structure SkEnv where
  cvMean : List ℚ
  cvStd : List ℚ
  predictEval : Table → List String

/-- The function `fit_and_predict(model, params, X_train, y_train,
X_eval, y_eval)`: two bare asserts on split lengths, then the pipeline
and grid-search construction, `clf.fit`, the printed cross-validation
aggregates, `clf.predict`, and the printed report and confusion
matrix. The `.error` results model the AssertionErrors, raised before
any fitting. -/
def fit_and_predict (env : SkEnv) (params : List (String × List ℚ))
    (X_train : Table) (y_train : List String)
    (X_eval : Table) (y_eval : List String) : Except String FitReport :=
  if X_train.rows.length = y_train.length then
    if X_eval.rows.length = y_eval.length then
      .ok { events := [.fitCall, .printCV, .predictCall, .printReport],
            cvMean := env.cvMean, cvStd := env.cvStd,
            y_pred := env.predictEval X_eval }
    else .error "AssertionError"
  else .error "AssertionError"

/-- Whether a `fit_and_predict` outcome ever reached the grid-search
fitting call. -/
def fitOccurred : Except String FitReport → Bool
  | .ok r => r.events.contains .fitCall
  | .error _ => false

/-- The state of a constructed `LsaPlotting` object: the four captured
inputs and the category set built from the train labels. The seaborn
color palette is a rendering constant and not modelled. -/
structure LsaPlotting where
  X_train_lsa : List (List ℚ)
  y_train : List String
  X_eval_lsa : List (List ℚ)
  y_eval : List String
  categories : Finset String
deriving DecidableEq

/-- The constructor `LsaPlotting.__init__`: stores the four inputs, then
asserts the two per-split length equalities, then builds the category
set. A failing assert raises inside `__init__`, so the caller never
receives an object; that is modelled by `none`. -/
def LsaPlotting.init (X_train_lsa : List (List ℚ)) (y_train : List String)
    (X_eval_lsa : List (List ℚ)) (y_eval : List String) : Option LsaPlotting :=
  if X_train_lsa.length = y_train.length then
    if X_eval_lsa.length = y_eval.length then
      some { X_train_lsa := X_train_lsa, y_train := y_train,
             X_eval_lsa := X_eval_lsa, y_eval := y_eval,
             categories := y_train.toFinset }
    else none
  else none

/-! Concrete instances used by the counterexamples and witnesses. -/

/-- A concrete fitted model: two clusters over two features; a row joins
cluster 1 exactly when its first feature is at least 5. -/
def exM : KMeansModel :=
  { n_clusters := 2, n_features := 2,
    predictRow := fun r => if 5 ≤ r.getD 0 0 then 1 else 0 }

/-- A concrete two-column feature table; `exM` sends its first row to
cluster 0 and its second row to cluster 1. -/
def exT : Table := { cols := ["a", "b"], rows := [[1, 2], [6, 3]] }

/-- The empty report, used as a slice default. -/
def emptyReport : ClusterReport := { trainTop := [], evalTop := [], overlap := ∅ }

/-- The reports of an optional `eval_clusters` outcome, empty when the
call raised. -/
def reportsOf : Option EvalOut → List ClusterReport
  | some o => o.reports
  | none => []

/-- The output of the concrete call `eval_clusters exM exT exT exT`,
extracted from under the `Option`. -/
def exOut : EvalOut :=
  (eval_clusters exM exT exT exT).getD
    { train := { cols := [], rows := [] }, eval := { cols := [], rows := [] },
      holdout := { cols := [], rows := [] }, trainLabels := [], evalLabels := [],
      holdoutLabels := [], reports := [] }

/-! Helper lemmas about the table primitives. -/

/-- Searching for an absent column name finds nothing. -/
lemma findIdx?_of_not_mem (l : List String) (a : String) (h : a ∉ l) :
    l.findIdx? (fun c => c == a) = none := by
  rw [List.findIdx?_eq_none_iff]
  intro x hx
  rw [beq_eq_false_iff_ne]
  exact fun hxa => h (hxa ▸ hx)

/-- Searching for a freshly appended column name finds it at the old
column count. -/
lemma findIdx?_append_self (l : List String) (a : String) (h : a ∉ l) :
    (l ++ [a]).findIdx? (fun c => c == a) = some l.length := by
  induction l with
  | nil => simp
  | cons x xs ih =>
    have hx : (x == a) = false := by
      rw [beq_eq_false_iff_ne]
      exact fun hxa => h (hxa ▸ List.mem_cons_self x xs)
    have ihx := ih (fun hm => h (List.mem_cons_of_mem _ hm))
    simp [List.findIdx?_cons, hx, List.findIdx?_start_succ, ihx]

/-- Reading a freshly appended entry. -/
lemma getD_append_length {α : Type} (l : List α) (x d : α) :
    (l ++ [x]).getD l.length d = x := by
  induction l with
  | nil => rfl
  | cons y ys ih => simp [ih]

/-- Appending one value per row and truncating back to the old width
restores the rows. -/
lemma map_take_zip_append (rs : List (List ℚ)) (vs : List ℚ) (w : Nat)
    (hw : ∀ r ∈ rs, r.length = w) (hl : rs.length = vs.length) :
    ((rs.zip vs).map (fun rv => rv.1 ++ [rv.2])).map (fun r => r.take w) = rs := by
  induction rs generalizing vs with
  | nil => simp
  | cons r rs ih =>
    cases vs with
    | nil => simp at hl
    | cons v vs =>
      have hr : r.length = w := hw r (List.mem_cons_self _ _)
      have hrest := ih vs (fun x hx => hw x (List.mem_cons_of_mem _ hx))
        (by simpa using hl)
      simp only [List.zip_cons_cons, List.map_cons, hrest]
      rw [← hr, List.take_left]

/-- Reading the appended entry of every row gives back the appended
values. -/
lemma map_getD_zip_append (rs : List (List ℚ)) (vs : List ℚ) (w : Nat)
    (hw : ∀ r ∈ rs, r.length = w) (hl : rs.length = vs.length) :
    ((rs.zip vs).map (fun rv => rv.1 ++ [rv.2])).map (fun r => r.getD w 0) = vs := by
  induction rs generalizing vs with
  | nil => cases vs with
    | nil => rfl
    | cons v vs => simp at hl
  | cons r rs ih =>
    cases vs with
    | nil => simp at hl
    | cons v vs =>
      have hr : r.length = w := hw r (List.mem_cons_self _ _)
      have hrest := ih vs (fun x hx => hw x (List.mem_cons_of_mem _ hx))
        (by simpa using hl)
      simp only [List.zip_cons_cons, List.map_cons, hrest]
      rw [← hr, getD_append_length]

/-- Assigning a fresh column appends it on the right. -/
lemma setCol_fresh (t : Table) (name : String) (vals : List ℚ)
    (h : name ∉ t.cols) :
    t.setCol name vals =
      { cols := t.cols ++ [name],
        rows := (t.rows.zip vals).map (fun rv => rv.1 ++ [rv.2]) } := by
  unfold Table.setCol
  rw [findIdx?_of_not_mem t.cols name h]

/-- Inverting a successful `eval_clusters` call: the three predictions
succeeded and the output is built from them. -/
lemma eval_clusters_inv {m : KMeansModel} {Xtr Xev Xho : Table} {out : EvalOut}
    (h : eval_clusters m Xtr Xev Xho = some out) :
    ∃ tl el hl : List Nat, m.predict Xtr = some tl ∧ m.predict Xev = some el ∧
      m.predict Xho = some hl ∧
      out = { train := Xtr.setCol "clusters" (natsToRats tl),
              eval := Xev.setCol "clusters" (natsToRats el),
              holdout := Xho.setCol "clusters" (natsToRats hl),
              trainLabels := tl, evalLabels := el, holdoutLabels := hl,
              reports := (List.range m.n_clusters).map
                (clusterReport (Xtr.setCol "clusters" (natsToRats tl))
                  (Xev.setCol "clusters" (natsToRats el))) } := by
  unfold eval_clusters at h
  cases htr : m.predict Xtr with
  | none => rw [htr] at h; cases h
  | some tl =>
    cases hev : m.predict Xev with
    | none => rw [htr, hev] at h; cases h
    | some el =>
      cases hho : m.predict Xho with
      | none => rw [htr, hev, hho] at h; cases h
      | some hl =>
        rw [htr, hev, hho] at h
        exact ⟨tl, el, hl, rfl, rfl, rfl, (Option.some.inj h).symm⟩

/-- Inverting a successful prediction: the widths matched and the labels
are the per-row predictions. -/
lemma predict_eq_some {m : KMeansModel} {t : Table} {l : List Nat}
    (h : m.predict t = some l) :
    t.cols.length = m.n_features ∧ l = t.rows.map m.predictRow := by
  unfold KMeansModel.predict at h
  split at h
  · exact ⟨by assumption, (Option.some.inj h).symm⟩
  · cases h

/-- A successful prediction from matching widths. -/
lemma predict_of_width {m : KMeansModel} {t : Table}
    (h : t.cols.length = m.n_features) :
    m.predict t = some (t.rows.map m.predictRow) := by
  unfold KMeansModel.predict
  rw [if_pos h]

/-- Summing a function constant on a list. -/
lemma sum_map_const_of (l : List (List ℚ)) (f : List ℚ → ℚ) (c : ℚ)
    (h : ∀ x ∈ l, f x = c) : (l.map f).sum = l.length * c := by
  induction l with
  | nil => simp
  | cons x xs ih =>
    have hx := h x (List.mem_cons_self _ _)
    have hxs := ih (fun y hy => h y (List.mem_cons_of_mem _ hy))
    simp only [List.map_cons, List.sum_cons, hx, hxs, List.length_cons]
    push_cast
    ring

/-! Further concrete instances for witnesses. -/

/-- The KMeans entry for two clusters, the first model of the default
sweep. -/
def m0 : SweepModel :=
  { name := "KMeans", n_clusters := 2, init := "k-means++",
    random_state := some 15, batch_size := none }

/-- A fit environment whose every fit yields a single cluster and whose
silhouette scoring is everywhere undefined. -/
def env0 : FitEnv := { fit := fun _ _ => [0, 0], sil := fun _ _ => none }

/-- A fit environment whose first fit and refit disagree and whose
silhouette score is 1. -/
def env1 : FitEnv :=
  { fit := fun _ k => if k = 0 then [0, 1, 0] else [1, 1, 0],
    sil := fun _ _ => some 1 }

/-- A grid-search environment with empty reports. -/
def env2 : SkEnv := { cvMean := [], cvStd := [], predictEval := fun _ => [] }

/-- The trace left by `processModel env1 exT m0`, extracted from under
the `Option`. -/
def tr1 : ModelTrace :=
  (processModel env1 exT m0).getD
    { printedParams := false, labels := [], y_pred := none,
      silhouette := none, printedScore := none, printedCrosstab := none }

/-! Claim theorems. -/

/-- C3: in the cluster sweep, whenever a fit produces only one distinct
cluster label, silhouette scoring is skipped for that model without
raising an error, for every candidate cluster count in the range: the
loop body of `make_kmeans_clusters` still prints the model parameters
and completes normally, computing no silhouette score and printing no
score or crosstab. -/
theorem c3 (env : FitEnv) (train_data : TrainInput) (start stop step : Nat)
    (m : SweepModel) (hm : m ∈ sweepModels start stop step)
    (h1 : (env.fit m 0).dedup.length = 1) :
    processModel env (normalizeTrain train_data) m =
      some { printedParams := true, labels := env.fit m 0, y_pred := none,
             silhouette := none, printedScore := none, printedCrosstab := none } := by
  unfold processModel
  dsimp only
  rw [h1]
  simp

/-- Witness for C3 at a concrete sweep entry whose fit collapses to one
cluster. -/
theorem c3_witness :
    processModel env0 (normalizeTrain (TrainInput.df exT)) m0 =
      some { printedParams := true, labels := env0.fit m0 0, y_pred := none,
             silhouette := none, printedScore := none, printedCrosstab := none } :=
  c3 env0 (TrainInput.df exT) 2 11 1 m0 (by decide) (by decide)

/-- C4: in `make_kmeans_clusters`, every fitted model has its parameters
printed, and the silhouette score and the predicted-vs-fit contingency
table are printed if and only if a silhouette score was computed and is
strictly greater than zero. -/
theorem c4 (env : FitEnv) (train_data : Table) (m : SweepModel)
    (tr : ModelTrace) (h : processModel env train_data m = some tr) :
    tr.printedParams = true ∧
      ((tr.printedScore.isSome ∧ tr.printedCrosstab.isSome) ↔
        ∃ s, tr.silhouette = some s ∧ 0 < s) := by
  unfold processModel at h
  dsimp only at h
  split at h
  · split at h
    · obtain rfl := Option.some.inj h
      refine ⟨rfl, ?_⟩
      rename_i s hsil
      by_cases hs : 0 < s
      · simp [hs]
      · simp [hs]
    · cases h
  · obtain rfl := Option.some.inj h
    simp

/-- Witness for C4 at a concrete model trace with a positive silhouette
score. -/
theorem c4_witness :
    tr1.printedParams = true ∧
      ((tr1.printedScore.isSome ∧ tr1.printedCrosstab.isSome) ↔
        ∃ s, tr1.silhouette = some s ∧ 0 < s) :=
  c4 env1 exT m0 tr1 rfl

/-- C5: in `fit_and_predict`, a length mismatch between features and
labels on either split makes the call fail with an AssertionError
before any model fitting occurs, so the estimator is never fitted. -/
theorem c5 (env : SkEnv) (params : List (String × List ℚ)) (X_train : Table)
    (y_train : List String) (X_eval : Table) (y_eval : List String)
    (h : X_eval.rows.length ≠ y_eval.length ∨
      X_train.rows.length ≠ y_train.length) :
    fit_and_predict env params X_train y_train X_eval y_eval =
      .error "AssertionError" ∧
      fitOccurred (fit_and_predict env params X_train y_train X_eval y_eval) =
        false := by
  have hres : fit_and_predict env params X_train y_train X_eval y_eval =
      .error "AssertionError" := by
    unfold fit_and_predict
    rcases h with h | h
    · by_cases ht : X_train.rows.length = y_train.length
      · rw [if_pos ht, if_neg h]
      · rw [if_neg ht]
    · rw [if_neg h]
  exact ⟨hres, by rw [hres]; rfl⟩

/-- Witness for C5 at a concrete eval split whose label series is too
short. -/
theorem c5_witness :
    fit_and_predict env2 [] exT ["x", "y"] exT ["x"] =
      .error "AssertionError" ∧
      fitOccurred (fit_and_predict env2 [] exT ["x", "y"] exT ["x"]) = false :=
  c5 env2 [] exT ["x", "y"] exT ["x"] (Or.inl (by decide))

/-- C6: the `LsaPlotting` constructor fails exactly when the row count
of a projection matrix differs from the length of its paired label
series; on such a mismatch no object is produced (the plotting methods
are never reachable), and on matching lengths construction succeeds. -/
theorem c6 (X_train_lsa : List (List ℚ)) (y_train : List String)
    (X_eval_lsa : List (List ℚ)) (y_eval : List String) :
    LsaPlotting.init X_train_lsa y_train X_eval_lsa y_eval = none ↔
      (X_train_lsa.length ≠ y_train.length ∨
        X_eval_lsa.length ≠ y_eval.length) := by
  unfold LsaPlotting.init
  by_cases h1 : X_train_lsa.length = y_train.length
  · by_cases h2 : X_eval_lsa.length = y_eval.length
    · simp [h1, h2]
    · simp [h1, h2]
  · simp [h1]

/-- Witness for C6 at a concrete mismatched train split. -/
theorem c6_witness : LsaPlotting.init [[1]] [] [] [] = none :=
  (c6 [[1]] [] [] []).mpr (Or.inl (by decide))

/-- C8: in `make_kmeans_clusters`, a raw numeric matrix is normalized,
before any fitting, to a table whose synthesized column names append
the column index to the prefix comp underscore, one name per matrix
column, while a table input is used as-is; every model of the sweep is
then processed against that normalized table. -/
theorem c8 :
    (∀ mdata : List (List ℚ),
        (normalizeTrain (TrainInput.mat mdata)).rows = mdata ∧
        (normalizeTrain (TrainInput.mat mdata)).cols =
          (List.range (mdata.headD []).length).map
            (fun i => "comp_" ++ toString i)) ∧
    (∀ t : Table, normalizeTrain (TrainInput.df t) = t) ∧
    (normalizeTrain (TrainInput.mat [[1, 2, 3], [4, 5, 6]])).cols =
      ["comp_0", "comp_1", "comp_2"] ∧
    (∀ env train_data start stop step,
        make_kmeans_clusters env train_data start stop step =
          (sweepModels start stop step).mapM
            (processModel env (normalizeTrain train_data))) :=
  ⟨fun _ => ⟨rfl, rfl⟩, fun _ => rfl, by decide, fun _ _ _ _ _ => rfl⟩

/-- Witness for C8 at a concrete two-row, two-column matrix. -/
theorem c8_witness :
    (normalizeTrain (TrainInput.mat [[(1 : ℚ), 2], [3, 4]])).cols =
      (List.range ([[(1 : ℚ), 2], [3, 4]].headD []).length).map
        (fun i => "comp_" ++ toString i) :=
  (c8.1 [[(1 : ℚ), 2], [3, 4]]).2

/-- C10: in `make_kmeans_clusters`, when the first fit yields more than
one distinct cluster and silhouette scoring succeeds, the model is
fitted a second time via `fit_predict`; the silhouette score is computed
from the first fit's labels, the printed contingency table
cross-tabulates the second fit's predictions against the first fit's
labels, and those two label vectors coincide exactly when the refit
reproduced the first fit (a deterministic model variant). -/
theorem c10 (env : FitEnv) (train_data : Table) (m : SweepModel) (s : ℚ)
    (h1 : (env.fit m 0).dedup.length > 1)
    (h2 : env.sil train_data (env.fit m 0) = some s) :
    processModel env train_data m =
      some { printedParams := true, labels := env.fit m 0,
             y_pred := some (env.fit m 1), silhouette := some s,
             printedScore := if 0 < s then some s else none,
             printedCrosstab :=
               if 0 < s then some (env.fit m 1, env.fit m 0) else none } ∧
      (∀ a b,
        (if 0 < s then some (env.fit m 1, env.fit m 0) else none) =
            some (a, b) →
          (a = b ↔ env.fit m 1 = env.fit m 0)) := by
  constructor
  · unfold processModel
    dsimp only
    rw [if_pos h1, h2]
  · intro a b hab
    split at hab
    · obtain ⟨ha, hb⟩ := Prod.mk.injEq .. ▸ Option.some.inj hab
      rw [← ha, ← hb]
    · cases hab

/-- Witness for C10 at a concrete environment whose refit disagrees
with the first fit. -/
theorem c10_witness :
    processModel env1 exT m0 =
      some { printedParams := true, labels := env1.fit m0 0,
             y_pred := some (env1.fit m0 1), silhouette := some 1,
             printedScore := if 0 < (1 : ℚ) then some 1 else none,
             printedCrosstab :=
               if 0 < (1 : ℚ) then some (env1.fit m0 1, env1.fit m0 0)
               else none } ∧
      (∀ a b,
        (if 0 < (1 : ℚ) then some (env1.fit m0 1, env1.fit m0 0) else none) =
            some (a, b) →
          (a = b ↔ env1.fit m0 1 = env1.fit m0 0)) :=
  c10 env1 exT m0 1 (by decide) rfl

/-- The label columns appended by the model are as long as the label
vectors. -/
lemma natsToRats_length (l : List Nat) : (natsToRats l).length = l.length := by
  simp [natsToRats]

/-- Concrete mean series of the cluster-0 selection of the mutated
concrete train table. -/
lemma exMeans0 : (exOut.train.filterEq "clusters" (0 : ℚ)).colMeans =
    [("a", 1), ("b", 2), ("clusters", 0)] := by
  have hrows : (exOut.train.filterEq "clusters" (0 : ℚ)).rows = [[1, 2, 0]] := by
    decide
  have hcols : (exOut.train.filterEq "clusters" (0 : ℚ)).cols =
      ["a", "b", "clusters"] := by decide
  unfold Table.colMeans
  rw [hrows, hcols]
  norm_num [List.range_succ]

/-- Concrete mean series of the cluster-1 selection of the mutated
concrete train table. -/
lemma exMeans1 : (exOut.train.filterEq "clusters" (1 : ℚ)).colMeans =
    [("a", 6), ("b", 3), ("clusters", 1)] := by
  have hrows : (exOut.train.filterEq "clusters" (1 : ℚ)).rows = [[6, 3, 1]] := by
    decide
  have hcols : (exOut.train.filterEq "clusters" (1 : ℚ)).cols =
      ["a", "b", "clusters"] := by decide
  unfold Table.colMeans
  rw [hrows, hcols]
  norm_num [List.range_succ]

/-- Sorting the concrete cluster-0 mean series. -/
lemma exSorted0 : sortDesc [("a", 1), ("b", 2), ("clusters", 0)] =
    [("b", 2), ("a", 1), ("clusters", 0)] := by
  norm_num [sortDesc, insertDesc]

/-- Sorting the concrete cluster-1 mean series. -/
lemma exSorted1 : sortDesc [("a", 6), ("b", 3), ("clusters", 1)] =
    [("a", 6), ("b", 3), ("clusters", 1)] := by
  norm_num [sortDesc, insertDesc]

/-- C1 counterexample: at a concrete fitted model and concrete tables,
the reported top columns of cluster 0 are not ranks [1,11) of the
columns sorted by within-cluster mean descending, refuting the claimed
asymmetry direction. -/
theorem c1_counterexample :
    (eval_clusters exM exT exT exT).isSome = true ∧
      ((reportsOf (eval_clusters exM exT exT exT)).getD 0 emptyReport).trainTop ≠
        windowSlice
          (sortDesc ((exOut.train.filterEq "clusters" (0 : ℚ)).colMeans))
          1 11 := by
  refine ⟨rfl, ?_⟩
  have hrep : ((reportsOf (eval_clusters exM exT exT exT)).getD 0
      emptyReport).trainTop =
      windowSlice
        (sortDesc ((exOut.train.filterEq "clusters" (0 : ℚ)).colMeans)) 0 10 :=
    rfl
  rw [hrep, exMeans0, exSorted0]
  decide

/-- C1 amended: in `eval_clusters`, the per-cluster top-column window is
asymmetric the other way around: for cluster index 0 the reported top
columns are ranks [0,10) of the columns sorted by within-cluster mean
descending, and for every other cluster index they are ranks [1,11). -/
theorem c1_amended (m : KMeansModel) (Xtr Xev Xho : Table) (out : EvalOut)
    (h : eval_clusters m Xtr Xev Xho = some out) (i : Nat)
    (hi : i < m.n_clusters) :
    (out.reports[i]?).map ClusterReport.trainTop =
      some (windowSlice
        (sortDesc ((out.train.filterEq "clusters" (i : ℚ)).colMeans))
        (if i = 0 then 0 else 1) (if i = 0 then 10 else 11)) ∧
    (out.reports[i]?).map ClusterReport.evalTop =
      some (windowSlice
        (sortDesc ((out.eval.filterEq "clusters" (i : ℚ)).colMeans))
        (if i = 0 then 0 else 1) (if i = 0 then 10 else 11)) := by
  obtain ⟨tl, el, hl, htr, hev, hho, hout⟩ := eval_clusters_inv h
  subst hout
  have hget : ((List.range m.n_clusters).map
      (clusterReport (Xtr.setCol "clusters" (natsToRats tl))
        (Xev.setCol "clusters" (natsToRats el))))[i]? =
      some (clusterReport (Xtr.setCol "clusters" (natsToRats tl))
        (Xev.setCol "clusters" (natsToRats el)) i) := by
    rw [List.getElem?_map, List.getElem?_range hi]
    rfl
  refine ⟨?_, ?_⟩ <;>
    · rw [hget]
      unfold clusterReport
      cases i with
      | zero => simp
      | succ k => simp

/-- Witness for C1 (amended) at the concrete instance, cluster 0. -/
theorem c1_witness :
    ((exOut.reports[0]?).map ClusterReport.trainTop =
      some (windowSlice
        (sortDesc ((exOut.train.filterEq "clusters" (0 : ℚ)).colMeans))
        (if 0 = 0 then 0 else 1) (if 0 = 0 then 10 else 11))) :=
  (c1_amended exM exT exT exT exOut rfl 0 (by decide)).1

/-- C2 counterexample: at a concrete fitted model and concrete tables, a
first `eval_clusters` call succeeds, but repeating the call with the
same (now mutated) tables raises instead of reproducing the assignment,
refuting idempotence as claimed. -/
theorem c2_counterexample :
    (eval_clusters exM exT exT exT).isSome = true ∧
      eval_clusters exM exOut.train exOut.eval exOut.holdout = none :=
  ⟨rfl, rfl⟩

/-- C2 amended: `eval_clusters` is not idempotent on its tables: a first
successful call appends a `clusters` column in place, so a second call
with the same three (mutated) tables fails the fitted model's
feature-count check and raises, yielding no assignments at all. -/
theorem c2_amended (m : KMeansModel) (Xtr Xev Xho : Table) (out : EvalOut)
    (h : eval_clusters m Xtr Xev Xho = some out)
    (hc : "clusters" ∉ Xtr.cols) :
    eval_clusters m out.train out.eval out.holdout = none := by
  obtain ⟨tl, el, hl, htr, hev, hho, hout⟩ := eval_clusters_inv h
  have hw : Xtr.cols.length = m.n_features := (predict_eq_some htr).1
  have hcols : out.train.cols = Xtr.cols ++ ["clusters"] := by
    rw [hout]
    rw [setCol_fresh _ _ _ hc]
  have hpred : m.predict out.train = none := by
    unfold KMeansModel.predict
    rw [if_neg]
    rw [hcols, List.length_append, List.length_singleton, hw]
    omega
  unfold eval_clusters
  rw [hpred]

/-- Witness for C2 (amended) at the concrete instance. -/
theorem c2_witness :
    eval_clusters exM exOut.train exOut.eval exOut.holdout = none :=
  c2_amended exM exT exT exT exOut rfl (by decide)

/-- What C7 asserts of one caller-supplied table: the assigned labels
are the model's per-row predictions, exactly one `clusters` column is
appended on the right, all pre-existing column values are unchanged, and
every assigned label lies in [0, n_clusters). -/
def AppendsClusters (m : KMeansModel) (X X' : Table) (labs : List Nat) : Prop :=
  labs = X.rows.map m.predictRow ∧
  X'.cols = X.cols ++ ["clusters"] ∧
  X'.rows.map (fun r => r.take X.cols.length) = X.rows ∧
  X'.rows.map (fun r => r.getD X.cols.length 0) = natsToRats labs ∧
  ∀ lab ∈ labs, lab < m.n_clusters

/-- The mutation `X[clusters] = model.predict(X)` satisfies the C7
characterization. -/
lemma appendsClusters_setCol (m : KMeansModel) (X : Table) (hwf : X.WF)
    (hc : "clusters" ∉ X.cols)
    (hb : ∀ r ∈ X.rows, m.predictRow r < m.n_clusters) :
    AppendsClusters m X
      (X.setCol "clusters" (natsToRats (X.rows.map m.predictRow)))
      (X.rows.map m.predictRow) := by
  rw [setCol_fresh _ _ _ hc]
  have hlen : X.rows.length = (natsToRats (X.rows.map m.predictRow)).length := by
    rw [natsToRats_length, List.length_map]
  refine ⟨rfl, rfl, ?_, ?_, ?_⟩
  · exact map_take_zip_append X.rows _ X.cols.length hwf hlen
  · exact map_getD_zip_append X.rows _ X.cols.length hwf hlen
  · intro lab hlab
    obtain ⟨r, hr, rfl⟩ := List.mem_map.mp hlab
    exact hb r hr

/-- C7: `eval_clusters` mutates each of the three caller-supplied tables
(modelled by explicit state passing: the mutated tables are returned) by
appending exactly one integer cluster-assignment column whose values lie
in [0, n_clusters), making no defensive copy and leaving all
pre-existing columns of each table unchanged. The hypotheses record the
caller contract: well-formed tables without a `clusters` column, of the
model's fitted width, under a fitted model predicting into
[0, n_clusters). -/
theorem c7 (m : KMeansModel) (Xtr Xev Xho : Table)
    (htr : Xtr.WF) (hev : Xev.WF) (hho : Xho.WF)
    (ctr : "clusters" ∉ Xtr.cols) (cev : "clusters" ∉ Xev.cols)
    (cho : "clusters" ∉ Xho.cols)
    (wtr : Xtr.cols.length = m.n_features)
    (wev : Xev.cols.length = m.n_features)
    (who : Xho.cols.length = m.n_features)
    (btr : ∀ r ∈ Xtr.rows, m.predictRow r < m.n_clusters)
    (bev : ∀ r ∈ Xev.rows, m.predictRow r < m.n_clusters)
    (bho : ∀ r ∈ Xho.rows, m.predictRow r < m.n_clusters) :
    ∃ out, eval_clusters m Xtr Xev Xho = some out ∧
      AppendsClusters m Xtr out.train out.trainLabels ∧
      AppendsClusters m Xev out.eval out.evalLabels ∧
      AppendsClusters m Xho out.holdout out.holdoutLabels := by
  have hsome : eval_clusters m Xtr Xev Xho = some
      { train := Xtr.setCol "clusters" (natsToRats (Xtr.rows.map m.predictRow)),
        eval := Xev.setCol "clusters" (natsToRats (Xev.rows.map m.predictRow)),
        holdout := Xho.setCol "clusters" (natsToRats (Xho.rows.map m.predictRow)),
        trainLabels := Xtr.rows.map m.predictRow,
        evalLabels := Xev.rows.map m.predictRow,
        holdoutLabels := Xho.rows.map m.predictRow,
        reports := (List.range m.n_clusters).map
          (clusterReport
            (Xtr.setCol "clusters" (natsToRats (Xtr.rows.map m.predictRow)))
            (Xev.setCol "clusters" (natsToRats (Xev.rows.map m.predictRow)))) } := by
    unfold eval_clusters
    rw [predict_of_width wtr, predict_of_width wev, predict_of_width who]
  refine ⟨_, hsome, ?_, ?_, ?_⟩
  · exact appendsClusters_setCol m Xtr htr ctr btr
  · exact appendsClusters_setCol m Xev hev cev bev
  · exact appendsClusters_setCol m Xho hho cho bho

/-- Witness for C7 at the concrete model and tables. -/
theorem c7_witness :
    ∃ out, eval_clusters exM exT exT exT = some out ∧
      AppendsClusters exM exT out.train out.trainLabels ∧
      AppendsClusters exM exT out.eval out.evalLabels ∧
      AppendsClusters exM exT out.holdout out.holdoutLabels :=
  c7 exM exT exT exT (by decide) (by decide) (by decide) (by decide)
    (by decide) (by decide) (by decide) (by decide) (by decide)
    (fun r _ => by unfold exM; dsimp only; split <;> omega)
    (fun r _ => by unfold exM; dsimp only; split <;> omega)
    (fun r _ => by unfold exM; dsimp only; split <;> omega)


/-- C9: the appended `clusters` column itself participates in the
per-cluster column ranking of `eval_clusters`: the within-cluster means
are computed over all columns including `clusters`, whose mean within a
nonempty cluster-i selection equals i; and at a concrete instance with a
large enough cluster index the `clusters` column does appear inside the
reported top window. -/
theorem c9 :
    (∀ (m : KMeansModel) (Xtr Xev Xho : Table) (out : EvalOut) (i : Nat),
        eval_clusters m Xtr Xev Xho = some out →
        Xtr.WF → "clusters" ∉ Xtr.cols →
        (out.train.filterEq "clusters" (i : ℚ)).rows ≠ [] →
        ("clusters", (i : ℚ)) ∈
          (out.train.filterEq "clusters" (i : ℚ)).colMeans) ∧
    "clusters" ∈
      (((reportsOf (eval_clusters exM exT exT exT)).getD 1
        emptyReport).trainTop.map Prod.fst) := by
  constructor
  · intro m Xtr Xev Xho out i h hwf hc hne
    obtain ⟨tl, el, hl, htr, hev, hho, hout⟩ := eval_clusters_inv h
    have hcols : out.train.cols = Xtr.cols ++ ["clusters"] := by
      rw [hout]
      rw [setCol_fresh _ _ _ hc]
    have hidx : out.train.cols.findIdx? (fun c => c == "clusters") =
        some Xtr.cols.length := by
      rw [hcols]
      exact findIdx?_append_self _ _ hc
    have hfe : out.train.filterEq "clusters" (i : ℚ) =
        { cols := out.train.cols,
          rows := out.train.rows.filter
            (fun r => decide (r.getD Xtr.cols.length 0 = (i : ℚ))) } := by
      unfold Table.filterEq
      rw [hidx]
    rw [hfe] at hne ⊢
    unfold Table.colMeans
    dsimp only at hne ⊢
    apply List.mem_map.mpr
    refine ⟨Xtr.cols.length, ?_, ?_⟩
    · apply List.mem_range.mpr
      rw [hcols, List.length_append, List.length_singleton]
      omega
    · have hall : ∀ r ∈ out.train.rows.filter
          (fun r => decide (r.getD Xtr.cols.length 0 = (i : ℚ))),
          r.getD Xtr.cols.length 0 = (i : ℚ) := by
        intro r hr
        exact of_decide_eq_true (List.mem_filter.mp hr).2
      have hsum : ((out.train.rows.filter
          (fun r => decide (r.getD Xtr.cols.length 0 = (i : ℚ)))).map
            (fun r => r.getD Xtr.cols.length 0)).sum =
          ((out.train.rows.filter
            (fun r => decide (r.getD Xtr.cols.length 0 = (i : ℚ)))).length :
              ℚ) * (i : ℚ) :=
        sum_map_const_of _ _ _ hall
      have hlen0 : ((out.train.rows.filter
          (fun r => decide (r.getD Xtr.cols.length 0 = (i : ℚ)))).length :
            ℚ) ≠ 0 := by
        rw [Nat.cast_ne_zero]
        intro h0
        exact hne (List.length_eq_zero.mp h0)
      rw [Prod.mk.injEq]
      constructor
      · rw [hcols]
        exact getD_append_length _ _ _
      · rw [hsum]
        exact mul_div_cancel_left₀ _ hlen0
  · have hrep : ((reportsOf (eval_clusters exM exT exT exT)).getD 1
        emptyReport).trainTop =
        windowSlice
          (sortDesc ((exOut.train.filterEq "clusters" (1 : ℚ)).colMeans))
          1 11 := rfl
    rw [hrep, exMeans1, exSorted1]
    decide

/-- Witness for C9 at the concrete instance, cluster 1. -/
theorem c9_witness :
    ("clusters", (1 : ℚ)) ∈
      (exOut.train.filterEq "clusters" (1 : ℚ)).colMeans :=
  c9.1 exM exT exT exT exOut 1 rfl (by decide) (by decide) (by decide)

end NlpHelp
